import Mathlib

/-!
Shallow embedding of `src/src/lab-extension/jupyterlab-sparkmonitor.ts`
(class `JupyterLabSparkMonitor`): the event-correlation and channel-lifecycle
core of the sparkmonitor JupyterLab extension.

Modelling conventions:
- The class's mutable fields become the record `MonitorState`; each method
  becomes a function `MonitorState → ... → MonitorState × List Effect`,
  where the `Effect` trace records, in program order, every externally
  observable action (console warnings, Sink/NotebookStore calls, widget
  creation, comm messages).
- `cellWidgetMap : { [cellId: string]: boolean }` only ever receives `true`
  assignments, so it is embedded as the list of cell ids mapped to `true`.
- DOM reads performed by `createElementIfNotExists`
  (`notebookPanel.content.widgets.find(...)` and
  `node.querySelector with class sparkMonitorCellRoot`) are external inputs,
  embedded as the per-call environment `DomEnv`.
- `JSON.parse` is an external library call that either returns a value or
  throws; its outcome on the inner payload string is passed to
  `handleMessage` as an `Except Unit InnerData`. A thrown, uncaught
  exception is reflected by `DispatchResult.threw = true`.
-/

namespace SparkMonitor

/-- The fragment of `ICellModel` the monitor reads: `id` and `type`. -/
structure CellModel where
  id : String
  type : String
deriving DecidableEq, Repr

/-- Modelled from the spec: the `CurrentCellTracker` class (`current-cell.ts`)
is not under `src/`; only its call sites are. Per spec section 4.1 it holds
the current `ActiveCell` (absent when no cell is running), the monotone
`ExecutionCounter` returned by `getNumCellsExecuted()`, and the
`cellReexecuted` flag written by the Channel Manager's reconnect path. -/
structure Tracker where
  activeCell : Option CellModel
  numCellsExecuted : Nat
  cellReexecuted : Bool
deriving DecidableEq, Repr

/-- Decoded inner payload of a `fromscala` message: its `msgtype`
discriminant (`none` when the field is absent) and an opaque token standing
for the rest of the record, which is forwarded wholesale to the store. -/
structure InnerData where
  msgtype : Option String
  payload : Nat
deriving DecidableEq, Repr

/-- Calls the monitor makes on the external `NotebookStore` sink. -/
inductive SinkCall
  | onCellExecutedAgain (cellId : String)
  | onSparkJobStart (cellId : String) (payload : Nat)
  | onSparkStageSubmitted (cellId : String) (payload : Nat)
  | onSparkJobEnd (payload : Nat)
  | onSparkStageCompleted (payload : Nat)
  | onSparkStageActive (payload : Nat)
  | onSparkTaskStart (payload : Nat)
  | onSparkTaskEnd (payload : Nat)
  | onSparkApplicationStart (payload : Nat)
  | onSparkExecutorAdded (payload : Nat)
  | onSparkExecutorRemoved (payload : Nat)
  | onCellRemoved (cellId : String)
  | toggleHideAllDisplays
deriving DecidableEq, Repr

/-- Externally observable actions, recorded in program order. -/
inductive Effect
  | warn (s : String)
  | gateInvoke (cellId : String)
  | surfaceCreated (cellId : String)
  | sink (c : SinkCall)
  | commOpenMsg
deriving DecidableEq, Repr

/-- External DOM state read by `createElementIfNotExists`:
`widgetFound id` embeds whether `notebookPanel.content.widgets.find` locates
a live widget for the cell model, and `hasRoot id` embeds whether
`codeCell.node.querySelector` already finds a `sparkMonitorCellRoot`
element under that widget's node. -/
structure DomEnv where
  widgetFound : String → Bool
  hasRoot : String → Bool

/-- Whether the kernel returns a comm object from
`createComm(SparkMonitor)` / `connectToComm(SparkMonitor)`. -/
structure CommEnv where
  commAvailable : Bool

/-- The mutable fields of `JupyterLabSparkMonitor` (plus its tracker's
state): `cellExecCountSinceSparkJobStart`, `cellWidgetMap` (as the list of
ids mapped to `true`), and the comm handle. `startCommCalls` counts the
invocations of `startComm`, and doubles as the generation number of the
channel object currently held in `comm`. -/
structure MonitorState where
  tracker : Tracker
  cellExecCountSinceSparkJobStart : Nat
  cellWidgetMap : List String
  comm : Option Nat
  startCommCalls : Nat
deriving DecidableEq, Repr

/-- Field initializers of `JupyterLabSparkMonitor`:
`cellExecCountSinceSparkJobStart = 0`, empty `cellWidgetMap`, no comm yet.
The tracker starts with no active cell and a zero execution count. -/
def initState : MonitorState where
  tracker := { activeCell := none, numCellsExecuted := 0, cellReexecuted := false }
  cellExecCountSinceSparkJobStart := 0
  cellWidgetMap := []
  comm := none
  startCommCalls := 0

/-- Embedding of `createElementIfNotExists(cellModel)`. The early return on
`cellWidgetMap[cellModel.id] === true`, the `type === code` guard, the
widget lookup and the `querySelector` guard follow the source; on creation
the widget is inserted and `cellWidgetMap[cellModel.id] = true` is recorded.
The `gateInvoke` effect marks the call itself; `surfaceCreated` marks an
actual widget insertion. -/
def createElementIfNotExists (st : MonitorState) (env : DomEnv)
    (cellModel : CellModel) : MonitorState × List Effect :=
  if st.cellWidgetMap.contains cellModel.id then
    (st, [Effect.gateInvoke cellModel.id])
  else if cellModel.type = "code" then
    if env.widgetFound cellModel.id && !env.hasRoot cellModel.id then
      ({ st with cellWidgetMap := cellModel.id :: st.cellWidgetMap },
       [Effect.gateInvoke cellModel.id, Effect.surfaceCreated cellModel.id])
    else
      (st, [Effect.gateInvoke cellModel.id])
  else
    (st, [Effect.gateInvoke cellModel.id])

/-- The exact condition under which `createElementIfNotExists` inserts a
widget and marks the presence map. -/
def gateCreates (st : MonitorState) (env : DomEnv) (cellModel : CellModel) : Bool :=
  !st.cellWidgetMap.contains cellModel.id && cellModel.type == "code" &&
    env.widgetFound cellModel.id && !env.hasRoot cellModel.id

/-- Embedding of `onSparkJobStart(data)`: warn and return when no active
cell; otherwise run the presentation gate, compare
`getNumCellsExecuted()` with `cellExecCountSinceSparkJobStart`, on a new
execution save the count and call `onCellExecutedAgain`, then forward
`onSparkJobStart(cell.model.id, data)`. -/
def onSparkJobStart (st : MonitorState) (env : DomEnv) (data : InnerData) :
    MonitorState × List Effect :=
  match st.tracker.activeCell with
  | none => (st, [Effect.warn "SparkMonitor: Job started with no running cell."])
  | some cell =>
    let r := createElementIfNotExists st env cell
    let st1 := r.1
    if st1.tracker.numCellsExecuted > st1.cellExecCountSinceSparkJobStart then
      ({ st1 with cellExecCountSinceSparkJobStart := st1.tracker.numCellsExecuted },
       r.2 ++ [Effect.sink (SinkCall.onCellExecutedAgain cell.id),
               Effect.sink (SinkCall.onSparkJobStart cell.id data.payload)])
    else
      (st1, r.2 ++ [Effect.sink (SinkCall.onSparkJobStart cell.id data.payload)])

/-- Embedding of `onSparkStageSubmitted(data)`: warn and return when no
active cell; otherwise run the presentation gate and forward
`onSparkStageSubmitted(cell.model.id, data)`. -/
def onSparkStageSubmitted (st : MonitorState) (env : DomEnv) (data : InnerData) :
    MonitorState × List Effect :=
  match st.tracker.activeCell with
  | none => (st, [Effect.warn "SparkMonitor: Stage started with no running cell."])
  | some cell =>
    let r := createElementIfNotExists st env cell
    (r.1, r.2 ++ [Effect.sink (SinkCall.onSparkStageSubmitted cell.id data.payload)])

/-- The `switch (data.msgtype)` body of `handleMessage`: an absent
discriminant or one outside the recognized set hits `default` (a warning);
`sparkApplicationEnd` is an explicit no-op. -/
def dispatchInner (st : MonitorState) (env : DomEnv) (data : InnerData) :
    MonitorState × List Effect :=
  match data.msgtype with
  | none => (st, [Effect.warn "SparkMonitor: Unknown message"])
  | some s =>
    if s = "sparkJobStart" then onSparkJobStart st env data
    else if s = "sparkJobEnd" then
      (st, [Effect.sink (SinkCall.onSparkJobEnd data.payload)])
    else if s = "sparkStageSubmitted" then onSparkStageSubmitted st env data
    else if s = "sparkStageCompleted" then
      (st, [Effect.sink (SinkCall.onSparkStageCompleted data.payload)])
    else if s = "sparkStageActive" then
      (st, [Effect.sink (SinkCall.onSparkStageActive data.payload)])
    else if s = "sparkTaskStart" then
      (st, [Effect.sink (SinkCall.onSparkTaskStart data.payload)])
    else if s = "sparkTaskEnd" then
      (st, [Effect.sink (SinkCall.onSparkTaskEnd data.payload)])
    else if s = "sparkApplicationStart" then
      (st, [Effect.sink (SinkCall.onSparkApplicationStart data.payload)])
    else if s = "sparkApplicationEnd" then (st, [])
    else if s = "sparkExecutorAdded" then
      (st, [Effect.sink (SinkCall.onSparkExecutorAdded data.payload)])
    else if s = "sparkExecutorRemoved" then
      (st, [Effect.sink (SinkCall.onSparkExecutorRemoved data.payload)])
    else (st, [Effect.warn "SparkMonitor: Unknown message"])

/-- JavaScript truthiness of `msg.content.data.msgtype` for the one check
the source performs on it: `undefined` and the empty string are falsy. -/
def isFalsy : Option String → Bool
  | none => true
  | some s => s == ""

/-- Result of a `handleMessage` call: final state, effect trace up to the
point of return (or of the escaping exception), and whether an exception
escaped the method. -/
structure DispatchResult where
  state : MonitorState
  trace : List Effect
  threw : Bool
deriving DecidableEq, Repr

/-- Embedding of `handleMessage(msg)`. `envelopeMsgtype` is
`msg.content.data.msgtype`; `innerParse` is the outcome of the external
`JSON.parse(msg.content.data.msg)` call, which is only evaluated on the
`fromscala` branch and whose exception, if any, is not caught anywhere in
the method, so it escapes with the warning effects already emitted. -/
def handleMessage (st : MonitorState) (env : DomEnv)
    (envelopeMsgtype : Option String) (innerParse : Except Unit InnerData) :
    DispatchResult :=
  let warns :=
    if isFalsy envelopeMsgtype then [Effect.warn "SparkMonitor: Unknown message"]
    else []
  if envelopeMsgtype = some "fromscala" then
    match innerParse with
    | Except.error _ => ⟨st, warns, true⟩
    | Except.ok data =>
      let r := dispatchInner st env data
      ⟨r.1, warns ++ r.2, false⟩
  else ⟨st, warns, false⟩

/-- Embedding of `startComm()` after the `ready()` suspension resolves:
`this.comm` is reassigned to whatever the kernel returns (discarding any
previous channel object), the open message is sent when a comm exists, and
a warning is logged when none is returned. -/
def startComm (st : MonitorState) (cenv : CommEnv) : MonitorState × List Effect :=
  if cenv.commAvailable then
    ({ st with comm := some (st.startCommCalls + 1),
               startCommCalls := st.startCommCalls + 1 },
     [Effect.commOpenMsg])
  else
    ({ st with comm := none, startCommCalls := st.startCommCalls + 1 },
     [Effect.warn "SparkMonitor: Unable to connect to comm"])

/-- Embedding of the `statusChanged` callback registered in the
constructor: only a `starting` status clears `cellReexecuted` and calls
`startComm()` again. -/
def onStatusChanged (st : MonitorState) (cenv : CommEnv) (status : String) :
    MonitorState × List Effect :=
  if status = "starting" then
    startComm { st with tracker := { st.tracker with cellReexecuted := false } } cenv
  else (st, [])

/-- Embedding of the `cells.changed` callback for a `remove` change:
each non-undefined removed cell is forwarded to
`notebookStore.onCellRemoved(cell.id)`. -/
def onCellsRemoved (st : MonitorState) (cells : List (Option String)) :
    MonitorState × List Effect :=
  (st, cells.filterMap (fun c =>
    match c with
    | none => none
    | some id => some (Effect.sink (SinkCall.onCellRemoved id))))

/-- Modelled from the spec: `CurrentCellTracker.onCellStarted` lives in
`current-cell.ts`, which is not under `src/`. Per spec section 4.1 it
records the new `ActiveCell` and increments the `ExecutionCounter`; it
touches no field of `JupyterLabSparkMonitor` itself. -/
def onCellStarted (st : MonitorState) (cell : CellModel) :
    MonitorState × List Effect :=
  ({ st with tracker := { st.tracker with
      activeCell := some cell,
      numCellsExecuted := st.tracker.numCellsExecuted + 1 } }, [])

/-- Every event the monitor reacts to after construction. -/
inductive MonitorEvent
  | commMessage (envelopeMsgtype : Option String) (innerParse : Except Unit InnerData)
  | statusChange (status : String)
  | cellsRemoved (cells : List (Option String))
  | cellStarted (cell : CellModel)

/-- One reaction of the monitor to an event. -/
def step (st : MonitorState) (env : DomEnv) (cenv : CommEnv) :
    MonitorEvent → MonitorState
  | MonitorEvent.commMessage e i => (handleMessage st env e i).state
  | MonitorEvent.statusChange s => (onStatusChanged st cenv s).1
  | MonitorEvent.cellsRemoved cs => (onCellsRemoved st cs).1
  | MonitorEvent.cellStarted c => (onCellStarted st c).1

/-- A whole run: fold `step` over a list of events, each with its own
external environment. -/
def run (st : MonitorState) : List (MonitorEvent × DomEnv × CommEnv) → MonitorState
  | [] => st
  | (ev, env, cenv) :: rest => run (step st env cenv ev) rest

/-- The sequence of Sink (NotebookStore) calls in a trace. -/
def sinkCalls (tr : List Effect) : List SinkCall :=
  tr.filterMap (fun e =>
    match e with
    | Effect.sink c => some c
    | _ => none)

/-- The warnings logged in a trace. -/
def warnings (tr : List Effect) : List String :=
  tr.filterMap (fun e =>
    match e with
    | Effect.warn s => some s
    | _ => none)

/-- How many presentation surfaces a trace creates for a given cell id. -/
def creationsFor (tr : List Effect) (id : String) : Nat :=
  tr.countP (fun e => e == Effect.surfaceCreated id)

/-- Repeated invocations of the presentation gate on the same cell model,
each call with its own DOM environment. -/
def gateIter (st : MonitorState) (cellModel : CellModel) :
    List DomEnv → MonitorState × List Effect
  | [] => (st, [])
  | env :: rest =>
    let r := createElementIfNotExists st env cellModel
    let r' := gateIter r.1 cellModel rest
    (r'.1, r.2 ++ r'.2)

/-- Case-flattened form of the gate: it either creates (exactly when
`gateCreates` holds) or leaves the state untouched. -/
theorem createElementIfNotExists_eq (st : MonitorState) (env : DomEnv)
    (c : CellModel) :
    createElementIfNotExists st env c =
      if gateCreates st env c then
        ({ st with cellWidgetMap := c.id :: st.cellWidgetMap },
         [Effect.gateInvoke c.id, Effect.surfaceCreated c.id])
      else (st, [Effect.gateInvoke c.id]) := by
  by_cases h1 : c.id ∈ st.cellWidgetMap
  · simp [createElementIfNotExists, gateCreates, h1]
  · by_cases h2 : c.type = "code"
    · by_cases h3 : env.widgetFound c.id = true
      · by_cases h4 : env.hasRoot c.id = true
        · simp [createElementIfNotExists, gateCreates, h1, h2, h3, h4]
        · simp [createElementIfNotExists, gateCreates, h1, h2, h3, h4]
      · simp [createElementIfNotExists, gateCreates, h1, h2, h3]
    · simp [createElementIfNotExists, gateCreates, h1, h2]

theorem gate_tracker_eq (st : MonitorState) (env : DomEnv) (c : CellModel) :
    (createElementIfNotExists st env c).1.tracker = st.tracker := by
  rw [createElementIfNotExists_eq]
  by_cases h : gateCreates st env c <;> simp [h]

theorem gate_count_eq (st : MonitorState) (env : DomEnv) (c : CellModel) :
    (createElementIfNotExists st env c).1.cellExecCountSinceSparkJobStart =
      st.cellExecCountSinceSparkJobStart := by
  rw [createElementIfNotExists_eq]
  by_cases h : gateCreates st env c <;> simp [h]

theorem gate_trace_eq (st : MonitorState) (env : DomEnv) (c : CellModel) :
    (createElementIfNotExists st env c).2 =
      if gateCreates st env c then
        [Effect.gateInvoke c.id, Effect.surfaceCreated c.id]
      else [Effect.gateInvoke c.id] := by
  rw [createElementIfNotExists_eq]
  by_cases h : gateCreates st env c <;> simp [h]

theorem gate_no_sink (st : MonitorState) (env : DomEnv) (c : CellModel) :
    sinkCalls (createElementIfNotExists st env c).2 = [] := by
  rw [gate_trace_eq]
  by_cases h : gateCreates st env c <;> simp [h, sinkCalls]

theorem gate_mem_after_create (st : MonitorState) (env : DomEnv)
    (c : CellModel) (h : gateCreates st env c = true) :
    c.id ∈ (createElementIfNotExists st env c).1.cellWidgetMap := by
  rw [createElementIfNotExists_eq, h]
  simp

theorem gate_noop_of_mem (st : MonitorState) (env : DomEnv) (c : CellModel)
    (h : c.id ∈ st.cellWidgetMap) :
    createElementIfNotExists st env c = (st, [Effect.gateInvoke c.id]) := by
  rw [createElementIfNotExists_eq]
  have hf : gateCreates st env c = false := by
    unfold gateCreates
    simp [h]
  simp [hf]

theorem gate_noop_of_not_code (st : MonitorState) (env : DomEnv) (c : CellModel)
    (h : c.type ≠ "code") :
    createElementIfNotExists st env c = (st, [Effect.gateInvoke c.id]) := by
  rw [createElementIfNotExists_eq]
  have hf : gateCreates st env c = false := by
    unfold gateCreates
    simp [h]
  simp [hf]

theorem gate_noop_of_hasRoot (st : MonitorState) (env : DomEnv) (c : CellModel)
    (h : env.hasRoot c.id = true) :
    createElementIfNotExists st env c = (st, [Effect.gateInvoke c.id]) := by
  rw [createElementIfNotExists_eq]
  have hf : gateCreates st env c = false := by
    unfold gateCreates
    simp [h]
  simp [hf]

theorem creationsFor_append (t1 t2 : List Effect) (id : String) :
    creationsFor (t1 ++ t2) id = creationsFor t1 id + creationsFor t2 id := by
  simp [creationsFor, List.countP_append]

theorem gateIter_no_creation_of_mem (st : MonitorState) (c : CellModel)
    (envs : List DomEnv) (h : c.id ∈ st.cellWidgetMap) :
    creationsFor (gateIter st c envs).2 c.id = 0 := by
  induction envs generalizing st with
  | nil => simp [gateIter, creationsFor]
  | cons e rest ih =>
    simp only [gateIter]
    rw [gate_noop_of_mem st e c h]
    rw [creationsFor_append]
    have h2 := ih st h
    simp only [h2]
    simp [creationsFor]

theorem gate_creation_count (st : MonitorState) (env : DomEnv) (c : CellModel) :
    creationsFor (createElementIfNotExists st env c).2 c.id =
      if gateCreates st env c then 1 else 0 := by
  rw [gate_trace_eq]
  by_cases h : gateCreates st env c <;> simp [h, creationsFor]

theorem gate_state_of_not_create (st : MonitorState) (env : DomEnv)
    (c : CellModel) (h : gateCreates st env c = false) :
    (createElementIfNotExists st env c).1 = st := by
  rw [createElementIfNotExists_eq, h]
  simp

theorem gateIter_creations_le_one (st : MonitorState) (c : CellModel)
    (envs : List DomEnv) :
    creationsFor (gateIter st c envs).2 c.id ≤ 1 := by
  induction envs generalizing st with
  | nil => simp [gateIter, creationsFor]
  | cons e rest ih =>
    simp only [gateIter]
    rw [creationsFor_append]
    by_cases hc : gateCreates st e c
    · have hrest :=
        gateIter_no_creation_of_mem _ c rest (gate_mem_after_create st e c hc)
      rw [hrest, gate_creation_count, hc]
      simp
    · have hfc : gateCreates st e c = false := by simpa using hc
      rw [gate_creation_count, hfc, gate_state_of_not_create st e c hfc]
      simpa using ih st

theorem gateIter_creations_eq_one (st : MonitorState) (c : CellModel)
    (e : DomEnv) (envs : List DomEnv) (h : gateCreates st e c = true) :
    creationsFor (gateIter st c (e :: envs)).2 c.id = 1 := by
  simp only [gateIter]
  rw [creationsFor_append, gate_creation_count, h,
    gateIter_no_creation_of_mem _ c envs (gate_mem_after_create st e c h)]
  simp

theorem sinkCalls_append (t1 t2 : List Effect) :
    sinkCalls (t1 ++ t2) = sinkCalls t1 ++ sinkCalls t2 := by
  simp [sinkCalls]

theorem sinkCalls_sink_cons (c : SinkCall) (t : List Effect) :
    sinkCalls (Effect.sink c :: t) = c :: sinkCalls t := by
  simp [sinkCalls]

theorem sinkCalls_nil : sinkCalls [] = [] := rfl

/-- Normal form of `onSparkJobStart` when an active cell is present, with
the execution-count comparison expressed over the pre-state. -/
theorem onSparkJobStart_some (st : MonitorState) (env : DomEnv)
    (data : InnerData) (cell : CellModel)
    (h : st.tracker.activeCell = some cell) :
    onSparkJobStart st env data =
      if st.tracker.numCellsExecuted > st.cellExecCountSinceSparkJobStart then
        ({ (createElementIfNotExists st env cell).1 with
            cellExecCountSinceSparkJobStart := st.tracker.numCellsExecuted },
         (createElementIfNotExists st env cell).2 ++
           [Effect.sink (SinkCall.onCellExecutedAgain cell.id),
            Effect.sink (SinkCall.onSparkJobStart cell.id data.payload)])
      else
        ((createElementIfNotExists st env cell).1,
         (createElementIfNotExists st env cell).2 ++
           [Effect.sink (SinkCall.onSparkJobStart cell.id data.payload)]) := by
  unfold onSparkJobStart
  rw [h]
  simp only [gate_tracker_eq, gate_count_eq]

/-- Normal form of `onSparkStageSubmitted` when an active cell is present. -/
theorem onSparkStageSubmitted_some (st : MonitorState) (env : DomEnv)
    (data : InnerData) (cell : CellModel)
    (h : st.tracker.activeCell = some cell) :
    onSparkStageSubmitted st env data =
      ((createElementIfNotExists st env cell).1,
       (createElementIfNotExists st env cell).2 ++
         [Effect.sink (SinkCall.onSparkStageSubmitted cell.id data.payload)]) := by
  unfold onSparkStageSubmitted
  rw [h]

theorem onSparkStageSubmitted_saved (st : MonitorState) (env : DomEnv)
    (data : InnerData) :
    (onSparkStageSubmitted st env data).1.cellExecCountSinceSparkJobStart =
      st.cellExecCountSinceSparkJobStart := by
  rcases hc : st.tracker.activeCell with _ | cell
  · simp [onSparkStageSubmitted, hc]
  · rw [onSparkStageSubmitted_some st env data cell hc]
    exact gate_count_eq st env cell

/-- The saved counter after `dispatchInner`: it moves (to the tracker's
current count) exactly on a job-start with an active cell and a strictly
larger current count; every other branch leaves it unchanged. -/
theorem dispatchInner_saved_spec (st : MonitorState) (env : DomEnv)
    (data : InnerData) :
    (dispatchInner st env data).1.cellExecCountSinceSparkJobStart =
      if data.msgtype = some "sparkJobStart" ∧ st.tracker.activeCell ≠ none ∧
          st.tracker.numCellsExecuted > st.cellExecCountSinceSparkJobStart
      then st.tracker.numCellsExecuted
      else st.cellExecCountSinceSparkJobStart := by
  rcases hm : data.msgtype with _ | s
  · simp [dispatchInner, hm]
  · by_cases h1 : s = "sparkJobStart"
    · subst h1
      have hns : (dispatchInner st env data).1 = (onSparkJobStart st env data).1 := by
        simp [dispatchInner, hm]
      rw [hns]
      rcases hc : st.tracker.activeCell with _ | cell
      · simp [onSparkJobStart, hc, hm]
      · rw [onSparkJobStart_some st env data cell hc]
        by_cases hgt : st.tracker.numCellsExecuted > st.cellExecCountSinceSparkJobStart
        · simp [hgt, hc, hm]
        · simp [hgt, hc, hm, gate_count_eq]
    · have hns : ¬ (some s = some "sparkJobStart" ∧
          st.tracker.activeCell ≠ none ∧
          st.tracker.numCellsExecuted > st.cellExecCountSinceSparkJobStart) := by
        simp [h1]
      rw [if_neg hns]
      simp only [dispatchInner, hm]
      rw [if_neg (by simpa using h1 : ¬ s = "sparkJobStart")]
      repeat' split
      all_goals first
        | rfl
        | exact onSparkStageSubmitted_saved st env data

theorem handleMessage_state_ok (st : MonitorState) (env : DomEnv)
    (e : Option String) (d : InnerData) :
    (handleMessage st env e (Except.ok d)).state =
      if e = some "fromscala" then (dispatchInner st env d).1 else st := by
  by_cases he : e = some "fromscala" <;> simp [handleMessage, he]

theorem handleMessage_state_error (st : MonitorState) (env : DomEnv)
    (e : Option String) (u : Unit) :
    (handleMessage st env e (Except.error u)).state = st := by
  by_cases he : e = some "fromscala" <;> simp [handleMessage, he]

theorem startComm_saved (st : MonitorState) (cenv : CommEnv) :
    (startComm st cenv).1.cellExecCountSinceSparkJobStart =
      st.cellExecCountSinceSparkJobStart := by
  unfold startComm
  split <;> rfl

theorem onStatusChanged_saved (st : MonitorState) (cenv : CommEnv) (s : String) :
    (onStatusChanged st cenv s).1.cellExecCountSinceSparkJobStart =
      st.cellExecCountSinceSparkJobStart := by
  unfold onStatusChanged
  split
  · rw [startComm_saved]
  · rfl

theorem step_saved_le (st : MonitorState) (env : DomEnv) (cenv : CommEnv)
    (ev : MonitorEvent) :
    st.cellExecCountSinceSparkJobStart ≤
      (step st env cenv ev).cellExecCountSinceSparkJobStart := by
  cases ev with
  | commMessage e i =>
    simp only [step]
    cases i with
    | error u =>
      rw [handleMessage_state_error]
    | ok d =>
      rw [handleMessage_state_ok]
      by_cases he : e = some "fromscala"
      · rw [if_pos he, dispatchInner_saved_spec]
        split
        · omega
        · exact Nat.le_refl _
      · rw [if_neg he]
  | statusChange s =>
    simp only [step]
    rw [onStatusChanged_saved]
  | cellsRemoved cs => exact Nat.le_refl _
  | cellStarted c => exact Nat.le_refl _

theorem run_saved_le (st : MonitorState)
    (evs : List (MonitorEvent × DomEnv × CommEnv)) :
    st.cellExecCountSinceSparkJobStart ≤
      (run st evs).cellExecCountSinceSparkJobStart := by
  induction evs generalizing st with
  | nil => exact Nat.le_refl _
  | cons p rest ih =>
    rcases p with ⟨ev, env, cenv⟩
    exact Nat.le_trans (step_saved_le st env cenv ev) (ih _)

theorem step_saved_change (st : MonitorState) (env : DomEnv) (cenv : CommEnv)
    (ev : MonitorEvent)
    (h : (step st env cenv ev).cellExecCountSinceSparkJobStart ≠
      st.cellExecCountSinceSparkJobStart) :
    (∃ i, ev = MonitorEvent.commMessage (some "fromscala") (Except.ok i) ∧
        i.msgtype = some "sparkJobStart") ∧
    st.tracker.numCellsExecuted > st.cellExecCountSinceSparkJobStart ∧
    (step st env cenv ev).cellExecCountSinceSparkJobStart =
      st.tracker.numCellsExecuted := by
  cases ev with
  | commMessage e i =>
    cases i with
    | error u =>
      exfalso
      apply h
      simp only [step]
      rw [handleMessage_state_error]
    | ok d =>
      simp only [step] at h ⊢
      rw [handleMessage_state_ok] at h ⊢
      by_cases he : e = some "fromscala"
      · subst he
        rw [if_pos rfl] at h ⊢
        rw [dispatchInner_saved_spec] at h ⊢
        by_cases hcond : d.msgtype = some "sparkJobStart" ∧
            st.tracker.activeCell ≠ none ∧
            st.tracker.numCellsExecuted > st.cellExecCountSinceSparkJobStart
        · rw [if_pos hcond] at h ⊢
          exact ⟨⟨d, rfl, hcond.1⟩, hcond.2.2, rfl⟩
        · rw [if_neg hcond] at h
          exact absurd rfl h
      · rw [if_neg he] at h
        exact absurd rfl h
  | statusChange s =>
    exfalso
    apply h
    simp only [step]
    rw [onStatusChanged_saved]
  | cellsRemoved cs => exact absurd rfl h
  | cellStarted c => exact absurd rfl h

theorem handleMessage_ok_eq (st : MonitorState) (env : DomEnv)
    (d : InnerData) :
    handleMessage st env (some "fromscala") (Except.ok d) =
      ⟨(dispatchInner st env d).1, (dispatchInner st env d).2, false⟩ := by
  simp [handleMessage, isFalsy]

/-- The inner discriminants the `switch` recognizes. -/
def recognizedKinds : List String :=
  ["sparkJobStart", "sparkJobEnd", "sparkStageSubmitted", "sparkStageCompleted",
   "sparkStageActive", "sparkTaskStart", "sparkTaskEnd", "sparkApplicationStart",
   "sparkApplicationEnd", "sparkExecutorAdded", "sparkExecutorRemoved"]

/-- DOM environment where every cell widget is found and bears no
presentation root yet. -/
def envAll : DomEnv := ⟨fun _ => true, fun _ => false⟩

/-- A code cell with identity `c1`. -/
def cellC1 : CellModel := ⟨"c1", "code"⟩

/-- A decoded job-start payload. -/
def jobData : InnerData := ⟨some "sparkJobStart", 7⟩

/-- A decoded stage-submitted payload. -/
def stageData : InnerData := ⟨some "sparkStageSubmitted", 9⟩

/-- State after three execution signals, last job-start saved at count 1. -/
def stCount3Saved1 : MonitorState :=
  { tracker := ⟨some cellC1, 3, false⟩, cellExecCountSinceSparkJobStart := 1,
    cellWidgetMap := [], comm := none, startCommCalls := 0 }

/-- State where the count is still the saved count 1. -/
def stCount1Saved1 : MonitorState :=
  { tracker := ⟨some cellC1, 1, false⟩, cellExecCountSinceSparkJobStart := 1,
    cellWidgetMap := ["c1"], comm := none, startCommCalls := 0 }

/-- State with five executions and no job-start processed yet. -/
def stCount5Saved0 : MonitorState :=
  { tracker := ⟨some cellC1, 5, false⟩, cellExecCountSinceSparkJobStart := 0,
    cellWidgetMap := [], comm := none, startCommCalls := 0 }

/-- State with no active cell. -/
def stNoCell : MonitorState :=
  { tracker := ⟨none, 2, false⟩, cellExecCountSinceSparkJobStart := 1,
    cellWidgetMap := [], comm := none, startCommCalls := 0 }

/-- A job-start channel message event. -/
def evJob : MonitorEvent :=
  MonitorEvent.commMessage (some "fromscala") (Except.ok jobData)

/-- C1: on a job-start with an active cell, the dispatcher calls the Sink's
`onCellExecutedAgain` for that cell before forwarding `onSparkJobStart`,
and updates `cellExecCountSinceSparkJobStart` to the tracker's current
count, exactly when the current count strictly exceeds the saved one; at an
unchanged count it forwards without a reset and leaves the counter as is. -/
theorem jobStart_reexecution_detection (st : MonitorState) (env : DomEnv)
    (data : InnerData) (cell : CellModel)
    (h : st.tracker.activeCell = some cell) :
    (st.tracker.numCellsExecuted > st.cellExecCountSinceSparkJobStart →
      sinkCalls (onSparkJobStart st env data).2 =
        [SinkCall.onCellExecutedAgain cell.id,
         SinkCall.onSparkJobStart cell.id data.payload] ∧
      (onSparkJobStart st env data).1.cellExecCountSinceSparkJobStart =
        st.tracker.numCellsExecuted) ∧
    (st.tracker.numCellsExecuted ≤ st.cellExecCountSinceSparkJobStart →
      sinkCalls (onSparkJobStart st env data).2 =
        [SinkCall.onSparkJobStart cell.id data.payload] ∧
      (onSparkJobStart st env data).1.cellExecCountSinceSparkJobStart =
        st.cellExecCountSinceSparkJobStart) := by
  have hs := onSparkJobStart_some st env data cell h
  constructor
  · intro hgt
    rw [hs, if_pos hgt]
    refine ⟨?_, rfl⟩
    simp [sinkCalls_append, gate_no_sink, sinkCalls_sink_cons, sinkCalls_nil]
  · intro hle
    have hgt := Nat.not_lt.mpr hle
    rw [hs, if_neg hgt]
    refine ⟨?_, gate_count_eq st env cell⟩
    simp [sinkCalls_append, gate_no_sink, sinkCalls_sink_cons, sinkCalls_nil]

/-- Witness for C1 at the spec's scenario: counts 3 over saved 1 reset and
forward; count 1 at saved 1 forward only. -/
theorem jobStart_reexecution_detection_witness :
    stCount3Saved1.tracker.activeCell = some cellC1 ∧
    sinkCalls (onSparkJobStart stCount3Saved1 envAll jobData).2 =
      [SinkCall.onCellExecutedAgain "c1", SinkCall.onSparkJobStart "c1" 7] ∧
    (onSparkJobStart stCount3Saved1 envAll jobData).1.cellExecCountSinceSparkJobStart = 3 ∧
    sinkCalls (onSparkJobStart stCount1Saved1 envAll jobData).2 =
      [SinkCall.onSparkJobStart "c1" 7] ∧
    (onSparkJobStart stCount1Saved1 envAll jobData).1.cellExecCountSinceSparkJobStart = 1 := by
  refine ⟨rfl, ?_, ?_, ?_, ?_⟩
  · exact ((jobStart_reexecution_detection stCount3Saved1 envAll jobData cellC1 rfl).1
      (by decide)).1
  · exact ((jobStart_reexecution_detection stCount3Saved1 envAll jobData cellC1 rfl).1
      (by decide)).2
  · exact ((jobStart_reexecution_detection stCount1Saved1 envAll jobData cellC1 rfl).2
      (by decide)).1
  · exact ((jobStart_reexecution_detection stCount1Saved1 envAll jobData cellC1 rfl).2
      (by decide)).2

/-- C2: with an active cell present, both `onSparkJobStart` and
`onSparkStageSubmitted` invoke the presentation gate for that cell as their
first observable action, and the Sink forward for the event appears only
afterwards in the effect trace. -/
theorem gate_invoked_before_forward (st : MonitorState) (env : DomEnv)
    (data : InnerData) (cell : CellModel)
    (h : st.tracker.activeCell = some cell) :
    (∃ rest, (onSparkJobStart st env data).2 =
        Effect.gateInvoke cell.id :: rest ∧
      Effect.sink (SinkCall.onSparkJobStart cell.id data.payload) ∈ rest) ∧
    (∃ rest, (onSparkStageSubmitted st env data).2 =
        Effect.gateInvoke cell.id :: rest ∧
      Effect.sink (SinkCall.onSparkStageSubmitted cell.id data.payload) ∈ rest) := by
  constructor
  · rw [onSparkJobStart_some st env data cell h, createElementIfNotExists_eq]
    by_cases hgt : st.tracker.numCellsExecuted > st.cellExecCountSinceSparkJobStart
    · rw [if_pos hgt]
      by_cases hc : gateCreates st env cell
      · rw [if_pos hc]
        exact ⟨_, rfl, by simp⟩
      · rw [if_neg hc]
        exact ⟨_, rfl, by simp⟩
    · rw [if_neg hgt]
      by_cases hc : gateCreates st env cell
      · rw [if_pos hc]
        exact ⟨_, rfl, by simp⟩
      · rw [if_neg hc]
        exact ⟨_, rfl, by simp⟩
  · rw [onSparkStageSubmitted_some st env data cell h, createElementIfNotExists_eq]
    by_cases hc : gateCreates st env cell
    · rw [if_pos hc]
      exact ⟨_, rfl, by simp⟩
    · rw [if_neg hc]
      exact ⟨_, rfl, by simp⟩

/-- Witness for C2 at a concrete state with an active code cell. -/
theorem gate_invoked_before_forward_witness :
    stCount3Saved1.tracker.activeCell = some cellC1 ∧
    ((∃ rest, (onSparkJobStart stCount3Saved1 envAll jobData).2 =
        Effect.gateInvoke cellC1.id :: rest ∧
      Effect.sink (SinkCall.onSparkJobStart cellC1.id jobData.payload) ∈ rest) ∧
     (∃ rest, (onSparkStageSubmitted stCount3Saved1 envAll jobData).2 =
        Effect.gateInvoke cellC1.id :: rest ∧
      Effect.sink (SinkCall.onSparkStageSubmitted cellC1.id jobData.payload) ∈ rest)) :=
  ⟨rfl, gate_invoked_before_forward stCount3Saved1 envAll jobData cellC1 rfl⟩

/-- C3 is refuted at this input: a `fromscala` envelope whose inner payload
fails to parse makes `handleMessage` let the parse exception escape
(`threw = true`), contradicting the claim that no exception propagates
outward; no Sink call is made. -/
theorem parse_error_escapes_handleMessage :
    (handleMessage initState ⟨fun _ => true, fun _ => false⟩ (some "fromscala")
        (Except.error ())).threw = true ∧
    sinkCalls (handleMessage initState ⟨fun _ => true, fun _ => false⟩
        (some "fromscala") (Except.error ())).trace = [] :=
  ⟨rfl, rfl⟩

/-- C3 (amended): on a `fromscala` envelope with an unparseable inner
payload, `handleMessage` makes no Sink call, emits no effect and leaves the
state unchanged, but the `JSON.parse` exception is not caught and escapes
the method. -/
theorem parse_error_uncaught_no_sink (st : MonitorState) (env : DomEnv)
    (u : Unit) :
    handleMessage st env (some "fromscala") (Except.error u) =
      ⟨st, [], true⟩ := rfl

/-- C4 is refuted at this input: with five executions observed and a saved
counter of 0, a stage-submitted event with an active cell neither calls
`onCellExecutedAgain` nor updates the saved counter; it only forwards. -/
theorem stageSubmitted_skips_reexecution_check :
    stCount5Saved0.tracker.numCellsExecuted >
      stCount5Saved0.cellExecCountSinceSparkJobStart ∧
    (onSparkStageSubmitted stCount5Saved0 envAll
        stageData).1.cellExecCountSinceSparkJobStart = 0 ∧
    sinkCalls (onSparkStageSubmitted stCount5Saved0 envAll stageData).2 =
      [SinkCall.onSparkStageSubmitted "c1" 9] :=
  ⟨by decide, rfl, rfl⟩

/-- C4 (amended): a stage-submitted event with an active cell resolves the
cell, invokes the presentation gate first, and forwards the event, but
performs no execution-count comparison: the saved counter is never changed
and no reset call is made, regardless of the tracker's current count. -/
theorem stageSubmitted_forwards_without_reset (st : MonitorState)
    (env : DomEnv) (data : InnerData) (cell : CellModel)
    (h : st.tracker.activeCell = some cell) :
    sinkCalls (onSparkStageSubmitted st env data).2 =
      [SinkCall.onSparkStageSubmitted cell.id data.payload] ∧
    (onSparkStageSubmitted st env data).1.cellExecCountSinceSparkJobStart =
      st.cellExecCountSinceSparkJobStart ∧
    (onSparkStageSubmitted st env data).2.head? =
      some (Effect.gateInvoke cell.id) := by
  rw [onSparkStageSubmitted_some st env data cell h]
  refine ⟨?_, gate_count_eq st env cell, ?_⟩
  · simp [sinkCalls_append, gate_no_sink, sinkCalls_sink_cons, sinkCalls_nil]
  · rw [gate_trace_eq]
    by_cases hc : gateCreates st env cell
    · rw [if_pos hc]
      rfl
    · rw [if_neg hc]
      rfl

/-- Witness for the amended C4 at a concrete state. -/
theorem stageSubmitted_forwards_without_reset_witness :
    stCount5Saved0.tracker.activeCell = some cellC1 ∧
    (sinkCalls (onSparkStageSubmitted stCount5Saved0 envAll stageData).2 =
      [SinkCall.onSparkStageSubmitted cellC1.id stageData.payload] ∧
    (onSparkStageSubmitted stCount5Saved0 envAll
        stageData).1.cellExecCountSinceSparkJobStart =
      stCount5Saved0.cellExecCountSinceSparkJobStart ∧
    (onSparkStageSubmitted stCount5Saved0 envAll stageData).2.head? =
      some (Effect.gateInvoke cellC1.id)) :=
  ⟨rfl, stageSubmitted_forwards_without_reset stCount5Saved0 envAll stageData
    cellC1 rfl⟩

/-- C5: a job-start or stage-submitted event dispatched with no active cell
only logs a warning: the state (saved counter, widget map, comm) is
untouched, no Sink call and no gate invocation happens, and the dispatch
raises no exception. -/
theorem absent_active_cell_drops_event (st : MonitorState) (env : DomEnv)
    (data : InnerData) (p : Nat) (h : st.tracker.activeCell = none) :
    onSparkJobStart st env data =
      (st, [Effect.warn "SparkMonitor: Job started with no running cell."]) ∧
    onSparkStageSubmitted st env data =
      (st, [Effect.warn "SparkMonitor: Stage started with no running cell."]) ∧
    sinkCalls (onSparkJobStart st env data).2 = [] ∧
    sinkCalls (onSparkStageSubmitted st env data).2 = [] ∧
    (handleMessage st env (some "fromscala")
        (Except.ok ⟨some "sparkJobStart", p⟩)).threw = false ∧
    (handleMessage st env (some "fromscala")
        (Except.ok ⟨some "sparkStageSubmitted", p⟩)).threw = false := by
  have h1 : onSparkJobStart st env data =
      (st, [Effect.warn "SparkMonitor: Job started with no running cell."]) := by
    simp [onSparkJobStart, h]
  have h2 : onSparkStageSubmitted st env data =
      (st, [Effect.warn "SparkMonitor: Stage started with no running cell."]) := by
    simp [onSparkStageSubmitted, h]
  refine ⟨h1, h2, ?_, ?_, ?_, ?_⟩
  · rw [h1]
    rfl
  · rw [h2]
    rfl
  · rw [handleMessage_ok_eq]
  · rw [handleMessage_ok_eq]

/-- Witness for C5 at a state with no active cell. -/
theorem absent_active_cell_drops_event_witness :
    stNoCell.tracker.activeCell = none ∧
    (onSparkJobStart stNoCell envAll jobData =
      (stNoCell,
       [Effect.warn "SparkMonitor: Job started with no running cell."]) ∧
    onSparkStageSubmitted stNoCell envAll jobData =
      (stNoCell,
       [Effect.warn "SparkMonitor: Stage started with no running cell."]) ∧
    sinkCalls (onSparkJobStart stNoCell envAll jobData).2 = [] ∧
    sinkCalls (onSparkStageSubmitted stNoCell envAll jobData).2 = [] ∧
    (handleMessage stNoCell envAll (some "fromscala")
        (Except.ok ⟨some "sparkJobStart", 7⟩)).threw = false ∧
    (handleMessage stNoCell envAll (some "fromscala")
        (Except.ok ⟨some "sparkStageSubmitted", 7⟩)).threw = false) :=
  ⟨rfl, absent_active_cell_drops_event stNoCell envAll jobData 7 rfl⟩

/-- C6: a `fromscala` message whose decoded discriminant is
`sparkApplicationEnd`, or lies outside the recognized set, produces no Sink
call, no state change and no exception; `sparkApplicationEnd` is a silent
no-op while an unrecognized discriminant logs the unknown-message
warning. -/
theorem nonforwarded_inner_kinds (st : MonitorState) (env : DomEnv) (p : Nat)
    (k : Option String)
    (h : k = some "sparkApplicationEnd" ∨ ∀ s, k = some s → s ∉ recognizedKinds) :
    sinkCalls (handleMessage st env (some "fromscala")
      (Except.ok ⟨k, p⟩)).trace = [] ∧
    (handleMessage st env (some "fromscala") (Except.ok ⟨k, p⟩)).threw = false ∧
    (handleMessage st env (some "fromscala") (Except.ok ⟨k, p⟩)).state = st ∧
    (k = some "sparkApplicationEnd" →
      (handleMessage st env (some "fromscala") (Except.ok ⟨k, p⟩)).trace = []) ∧
    ((∀ s, k = some s → s ∉ recognizedKinds) →
      (handleMessage st env (some "fromscala") (Except.ok ⟨k, p⟩)).trace =
        [Effect.warn "SparkMonitor: Unknown message"]) := by
  rcases h with h | h
  · subst h
    rw [handleMessage_ok_eq st env ⟨some "sparkApplicationEnd", p⟩]
    have hd : dispatchInner st env ⟨some "sparkApplicationEnd", p⟩ = (st, []) := rfl
    rw [hd]
    refine ⟨rfl, rfl, rfl, fun _ => rfl, fun habs => ?_⟩
    exact absurd (by simp [recognizedKinds]) (habs "sparkApplicationEnd" rfl)
  · rcases k with _ | s
    · rw [handleMessage_ok_eq st env ⟨none, p⟩]
      have hd : dispatchInner st env ⟨none, p⟩ =
          (st, [Effect.warn "SparkMonitor: Unknown message"]) := rfl
      rw [hd]
      exact ⟨rfl, rfl, rfl, fun hk => Option.noConfusion hk, fun _ => rfl⟩
    · have hs : s ∉ recognizedKinds := h s rfl
      simp only [recognizedKinds, List.mem_cons, List.not_mem_nil, or_false,
        not_or] at hs
      obtain ⟨n1, n2, n3, n4, n5, n6, n7, n8, n9, n10, n11⟩ := hs
      rw [handleMessage_ok_eq st env ⟨some s, p⟩]
      have hd : dispatchInner st env ⟨some s, p⟩ =
          (st, [Effect.warn "SparkMonitor: Unknown message"]) := by
        simp [dispatchInner, n1, n2, n3, n4, n5, n6, n7, n8, n9, n10, n11]
      rw [hd]
      refine ⟨rfl, rfl, rfl, fun hk => ?_, fun _ => rfl⟩
      exact absurd (Option.some.inj hk) n9

/-- Witness for C6 at the spec's inputs `sparkApplicationEnd` and
`sparkFoo`. -/
theorem nonforwarded_inner_kinds_witness :
    (handleMessage stNoCell envAll (some "fromscala")
        (Except.ok ⟨some "sparkApplicationEnd", 3⟩)).trace = [] ∧
    sinkCalls (handleMessage stNoCell envAll (some "fromscala")
        (Except.ok ⟨some "sparkFoo", 3⟩)).trace = [] ∧
    (handleMessage stNoCell envAll (some "fromscala")
        (Except.ok ⟨some "sparkFoo", 3⟩)).trace =
      [Effect.warn "SparkMonitor: Unknown message"] := by
  refine ⟨?_, ?_, ?_⟩
  · exact (nonforwarded_inner_kinds stNoCell envAll 3
        (some "sparkApplicationEnd") (Or.inl rfl)).2.2.2.1 rfl
  · exact (nonforwarded_inner_kinds stNoCell envAll 3 (some "sparkFoo")
        (Or.inr (by intro s hs; cases hs; decide))).1
  · exact (nonforwarded_inner_kinds stNoCell envAll 3 (some "sparkFoo")
        (Or.inr (by intro s hs; cases hs; decide))).2.2.2.2
      (by intro s hs; cases hs; decide)

/-- C7 is refuted at this input: a message whose top-level discriminant is
the truthy string `bogus` is discarded with no Sink call, no inner parse
and no exception, but no warning is logged either, contrary to the
claim. -/
theorem nonmatching_envelope_silently_discarded :
    warnings (handleMessage initState ⟨fun _ => false, fun _ => false⟩
        (some "bogus") (Except.ok ⟨some "sparkJobStart", 7⟩)).trace = [] ∧
    handleMessage initState ⟨fun _ => false, fun _ => false⟩ (some "bogus")
        (Except.ok ⟨some "sparkJobStart", 7⟩) = ⟨initState, [], false⟩ :=
  ⟨rfl, rfl⟩

/-- C7 (amended): any envelope discriminant other than `fromscala` makes
`handleMessage` discard the message: state unchanged, no Sink call, the
inner payload never parsed (the result is independent of the parse
outcome), no exception; a warning is logged exactly when the discriminant
is absent or empty (falsy), not for every non-matching value. -/
theorem nonmatching_envelope_no_dispatch (st : MonitorState) (env : DomEnv)
    (e : Option String) (i i' : Except Unit InnerData)
    (h : e ≠ some "fromscala") :
    (handleMessage st env e i).state = st ∧
    sinkCalls (handleMessage st env e i).trace = [] ∧
    (handleMessage st env e i).threw = false ∧
    handleMessage st env e i = handleMessage st env e i' ∧
    warnings (handleMessage st env e i).trace =
      (if isFalsy e then ["SparkMonitor: Unknown message"] else []) := by
  have hm : ∀ j : Except Unit InnerData, handleMessage st env e j =
      ⟨st, if isFalsy e then [Effect.warn "SparkMonitor: Unknown message"]
           else [], false⟩ := by
    intro j
    unfold handleMessage
    rw [if_neg h]
  rw [hm i, hm i']
  by_cases hf : isFalsy e
  · simp [hf, sinkCalls, warnings]
  · simp [hf, sinkCalls_nil, warnings]

/-- Witness for the amended C7 at the discriminant `bogus`. -/
theorem nonmatching_envelope_no_dispatch_witness :
    (some "bogus" : Option String) ≠ some "fromscala" ∧
    ((handleMessage stNoCell envAll (some "bogus")
        (Except.ok jobData)).state = stNoCell ∧
    sinkCalls (handleMessage stNoCell envAll (some "bogus")
        (Except.ok jobData)).trace = [] ∧
    (handleMessage stNoCell envAll (some "bogus")
        (Except.ok jobData)).threw = false ∧
    handleMessage stNoCell envAll (some "bogus") (Except.ok jobData) =
      handleMessage stNoCell envAll (some "bogus") (Except.error ()) ∧
    warnings (handleMessage stNoCell envAll (some "bogus")
        (Except.ok jobData)).trace =
      (if isFalsy (some "bogus") then ["SparkMonitor: Unknown message"]
       else [])) :=
  ⟨by decide, nonmatching_envelope_no_dispatch stNoCell envAll (some "bogus")
    (Except.ok jobData) (Except.error ()) (by decide)⟩

/-- C8: a backend status transition to `starting` clears the tracker's
`cellReexecuted` flag and invokes `startComm` again, replacing the held
channel object (a fresh comm when the kernel provides one, `none`
otherwise); every other status leaves the state untouched and emits
nothing. -/
theorem starting_status_reconnects (st : MonitorState) (cenv : CommEnv)
    (status : String) :
    (status = "starting" →
      (onStatusChanged st cenv status).1.tracker.cellReexecuted = false ∧
      (onStatusChanged st cenv status).1.startCommCalls =
        st.startCommCalls + 1 ∧
      (onStatusChanged st cenv status).1.comm =
        (if cenv.commAvailable then some (st.startCommCalls + 1) else none)) ∧
    (status ≠ "starting" → onStatusChanged st cenv status = (st, [])) := by
  constructor
  · intro hs
    subst hs
    unfold onStatusChanged
    rw [if_pos rfl]
    unfold startComm
    by_cases hc : cenv.commAvailable
    · simp [hc]
    · simp [hc]
  · intro hs
    unfold onStatusChanged
    rw [if_neg hs]

/-- Witness for C8: a `starting` transition with a capable kernel, and an
`idle` transition that does nothing. -/
theorem starting_status_reconnects_witness :
    ((onStatusChanged stNoCell ⟨true⟩ "starting").1.tracker.cellReexecuted =
        false ∧
      (onStatusChanged stNoCell ⟨true⟩ "starting").1.startCommCalls =
        stNoCell.startCommCalls + 1 ∧
      (onStatusChanged stNoCell ⟨true⟩ "starting").1.comm =
        (if (⟨true⟩ : CommEnv).commAvailable
         then some (stNoCell.startCommCalls + 1) else none)) ∧
    onStatusChanged stNoCell ⟨true⟩ "idle" = (stNoCell, []) :=
  ⟨(starting_status_reconnects stNoCell ⟨true⟩ "starting").1 rfl,
   (starting_status_reconnects stNoCell ⟨true⟩ "idle").2 (by decide)⟩

/-- C9: across any number of gate invocations for the same cell identity at
most one presentation surface is created — exactly one once an invocation
finds the rendered cell without a surface — and a single invocation is a
no-op when the presence map already records the cell, when the cell is not
a code cell, or when a surface root is already attached. -/
theorem gate_idempotent_once (st : MonitorState) (c : CellModel) (e : DomEnv)
    (envs : List DomEnv) :
    creationsFor (gateIter st c envs).2 c.id ≤ 1 ∧
    (gateCreates st e c = true →
      creationsFor (gateIter st c (e :: envs)).2 c.id = 1) ∧
    (c.id ∈ st.cellWidgetMap →
      createElementIfNotExists st e c = (st, [Effect.gateInvoke c.id])) ∧
    (c.type ≠ "code" →
      createElementIfNotExists st e c = (st, [Effect.gateInvoke c.id])) ∧
    (e.hasRoot c.id = true →
      createElementIfNotExists st e c = (st, [Effect.gateInvoke c.id])) :=
  ⟨gateIter_creations_le_one st c envs,
   fun h => gateIter_creations_eq_one st c e envs h,
   fun h => gate_noop_of_mem st e c h,
   fun h => gate_noop_of_not_code st e c h,
   fun h => gate_noop_of_hasRoot st e c h⟩

/-- Witness for C9: three invocations on a fresh code cell create exactly
one surface. -/
theorem gate_idempotent_once_witness :
    gateCreates stCount3Saved1 envAll cellC1 = true ∧
    creationsFor (gateIter stCount3Saved1 cellC1
      (envAll :: [envAll, envAll])).2 cellC1.id = 1 :=
  ⟨rfl, (gate_idempotent_once stCount3Saved1 cellC1 envAll
    [envAll, envAll]).2.1 rfl⟩

/-- C10: `cellExecCountSinceSparkJobStart` starts at 0, never decreases
under any monitor event (single step or whole run), and moves only when a
`fromscala` job-start message is dispatched while the tracker's current
count strictly exceeds it, in which case it becomes that count. -/
theorem savedCounter_monotone_only_jobStart (st : MonitorState)
    (env : DomEnv) (cenv : CommEnv) (ev : MonitorEvent)
    (evs : List (MonitorEvent × DomEnv × CommEnv)) :
    initState.cellExecCountSinceSparkJobStart = 0 ∧
    st.cellExecCountSinceSparkJobStart ≤
      (step st env cenv ev).cellExecCountSinceSparkJobStart ∧
    st.cellExecCountSinceSparkJobStart ≤
      (run st evs).cellExecCountSinceSparkJobStart ∧
    ((step st env cenv ev).cellExecCountSinceSparkJobStart ≠
        st.cellExecCountSinceSparkJobStart →
      (∃ i, ev = MonitorEvent.commMessage (some "fromscala") (Except.ok i) ∧
          i.msgtype = some "sparkJobStart") ∧
      st.tracker.numCellsExecuted > st.cellExecCountSinceSparkJobStart ∧
      (step st env cenv ev).cellExecCountSinceSparkJobStart =
        st.tracker.numCellsExecuted) :=
  ⟨rfl, step_saved_le st env cenv ev, run_saved_le st evs,
   step_saved_change st env cenv ev⟩

/-- Witness for C10: a job-start message at count 3 over saved 1 moves the
counter to 3 and is the only kind of event that can move it. -/
theorem savedCounter_monotone_only_jobStart_witness :
    (step stCount3Saved1 envAll ⟨true⟩
        evJob).cellExecCountSinceSparkJobStart ≠
      stCount3Saved1.cellExecCountSinceSparkJobStart ∧
    stCount3Saved1.tracker.numCellsExecuted >
      stCount3Saved1.cellExecCountSinceSparkJobStart ∧
    (step stCount3Saved1 envAll ⟨true⟩
        evJob).cellExecCountSinceSparkJobStart =
      stCount3Saved1.tracker.numCellsExecuted := by
  have hst : (step stCount3Saved1 envAll ⟨true⟩
      evJob).cellExecCountSinceSparkJobStart = 3 := rfl
  have hne : (step stCount3Saved1 envAll ⟨true⟩
      evJob).cellExecCountSinceSparkJobStart ≠
      stCount3Saved1.cellExecCountSinceSparkJobStart := by
    rw [hst]
    decide
  refine ⟨hne, ?_, ?_⟩
  · exact ((savedCounter_monotone_only_jobStart stCount3Saved1 envAll ⟨true⟩
      evJob []).2.2.2 hne).2.1
  · exact ((savedCounter_monotone_only_jobStart stCount3Saved1 envAll ⟨true⟩
      evJob []).2.2.2 hne).2.2

end SparkMonitor
